import Mathlib

/-!
Shallow embedding of the pull-request wrapper
(`src/atlassian/bitbucket/cloud/repositories/pullRequests.py`, with the
constants of `src/atlassian/bitbucket/cloud/const.py`) and of the Service
Desk flat client (`src/atlassian/service_desk.py`).

Python JSON documents are modelled by the inductive `Json`; Python `None`
is `Json.null`.  A raised Python exception is a `PyErr` value; the classes
that matter here are the generic `Exception` (the InvalidState-class
error of `_check_if_open`) and `ValueError` (the InvalidArgument-class
errors of `comment` and `merge`).

The HTTP layer (`BitbucketCloudBase` / `AtlassianRestAPI`, not under
`src/`) is modelled from the spec: each of `get`/`post`/`delete` issues
exactly one HTTP request (spec section 6).  An action therefore returns
the list of requests it issued together with the exception it raised, if
any: a result `([], some e)` is "fails with `e` before issuing any
request", and `([r], none)` is "issues exactly the one request `r`".
-/

inductive Json where
  | null : Json
  | bool (b : Bool) : Json
  | num (n : Int) : Json
  | str (s : String) : Json
  | arr (elems : List Json) : Json
  | obj (fields : List (String × Json)) : Json

/-- Python dictionary lookup `d[k]` / `k in d`, as an optional value:
the first binding of `k` in an object, `none` otherwise. -/
def Json.lookup : Json → String → Option Json
  | .obj fields, k => List.lookup k fields
  | _, _ => none

/-- Python `k in data` on a dictionary. -/
def Json.hasKey (j : Json) (k : String) : Bool :=
  (j.lookup k).isSome

/-- Python truthiness of a JSON value: `None`, `False`, `0`, `""`, `[]`
and `{}` are falsy, everything else is truthy. -/
def Json.truthy : Json → Bool
  | .null => false
  | .bool b => b
  | .num n => n != 0
  | .str s => s != ""
  | .arr elems => !elems.isEmpty
  | .obj fields => !fields.isEmpty

/-- Python `a or b`: `a` when `a` is truthy, else `b`. -/
def pyOr (a b : Json) : Json :=
  if a.truthy then a else b

/-- A raised Python exception, by class. -/
inductive PyErr where
  | exception (msg : String) : PyErr
  | valueError (msg : String) : PyErr
  | keyError (key : String) : PyErr
  | attributeError (attr : String) : PyErr
  | schemaMismatch (expected : String) : PyErr

/-- True exactly on `ValueError` (the InvalidArgument class). -/
def PyErr.isValueError : PyErr → Bool
  | .valueError _ => true
  | _ => false

/-- Python `a or b` where evaluating `b` may raise: short-circuits on a
truthy `a`, so `b`'s effect only happens when `a` is falsy. -/
def pyOrElse (a : Json) (b : Except PyErr Json) : Except PyErr Json :=
  if a.truthy then .ok a else b

inductive Method where
  | get : Method
  | post : Method
  | put : Method
  | delete : Method

/-- One HTTP request as the transport sees it: method, path (relative to
the issuing object's endpoint for the Bitbucket wrappers, absolute for
the Service Desk client), query parameters and JSON body. -/
structure Request where
  method : Method
  path : String
  params : List (String × Int)
  body : Option Json

/-- The outcome of an action method: the HTTP requests it issued, in
order, and the exception it raised, if any. -/
abbrev ActionResult := List Request × Option PyErr

/-! ### Constants (`src/atlassian/bitbucket/cloud/const.py`) -/

def PR_MERGE_COMMIT : String := "merge_commit"

def PR_MERGE_SQUASH : String := "squash"

def PR_MERGE_FF : String := "fast_forward"

def PR_MERGE_STRATEGIES : List String := [PR_MERGE_COMMIT, PR_MERGE_SQUASH, PR_MERGE_FF]

def PR_STATE_OPEN : String := "OPEN"

def PR_STATE_DECLINED : String := "DECLINED"

def PR_STATE_MERGED : String := "MERGED"

def PR_STATE_SUPERSEDED : String := "SUPERSEDED"

/-! ### The PullRequest resource object -/

/-- A `PullRequest` wrapper: its own endpoint URL and the cached raw
document (`self.__data` of the base class). -/
structure PullRequest where
  url : String
  data : Json

/-- Modelled from the spec: `BitbucketCloudBase.get_data` is not under
`src/`; per spec section 4.2 read accessors are pure functions of the
owned document, so `get_data` is field lookup in the cached document,
with a missing field surfacing as a lookup error. -/
def PullRequest.get_data (pr : PullRequest) (key : String) : Except PyErr Json :=
  match pr.data.lookup key with
  | some v => .ok v
  | none => .error (.keyError key)

/-- Python `str.upper()` at the character level, exact wherever the
result can be a pure-ASCII string.  The only non-ASCII codepoints whose
Python uppercase is pure ASCII are sharp s, dotless i, long s and the
ff/fi/fl/ffi/ffl/st ligatures; they are expanded here exactly as Python
does.  Every other character either is ASCII (handled by
`Char.toUpper`) or keeps at least one non-ASCII character in its Python
uppercase, so leaving it unchanged never makes the result collide with
or miss the ASCII literals the state predicates compare against. -/
def pyCharUpper (c : Char) : List Char :=
  if c = 'ß' then ['S', 'S']
  else if c = 'ı' then ['I']
  else if c = 'ſ' then ['S']
  else if c = 'ﬀ' then ['F', 'F']
  else if c = 'ﬁ' then ['F', 'I']
  else if c = 'ﬂ' then ['F', 'L']
  else if c = 'ﬃ' then ['F', 'F', 'I']
  else if c = 'ﬄ' then ['F', 'F', 'L']
  else if c = 'ﬅ' then ['S', 'T']
  else if c = 'ﬆ' then ['S', 'T']
  else [c.toUpper]

/-- Python `s.upper()` on a string: concatenate the per-character
uppercase expansions. -/
def pyStrUpper (s : String) : String :=
  String.mk ((s.data.map pyCharUpper).flatten)

/-- Python `j.upper()` on a value expected to be a string; a non-string
raises `AttributeError`. -/
def pyUpper (j : Json) : Except PyErr String :=
  match j with
  | .str s => .ok (pyStrUpper s)
  | _ => .error (.attributeError "upper")

/-- `self.get_data("state").upper()`, the composite every state
predicate evaluates. -/
def PullRequest.stateUpper (pr : PullRequest) : Except PyErr String :=
  match pr.get_data "state" with
  | .ok j => pyUpper j
  | .error e => .error e

/-- `is_declined`: `self.get_data("state").upper() == PR_STATE_DECLINED`. -/
def PullRequest.is_declined (pr : PullRequest) : Except PyErr Bool :=
  match pr.stateUpper with
  | .ok s => .ok (s == PR_STATE_DECLINED)
  | .error e => .error e

/-- `is_merged`: `self.get_data("state").upper() == PR_STATE_MERGED`. -/
def PullRequest.is_merged (pr : PullRequest) : Except PyErr Bool :=
  match pr.stateUpper with
  | .ok s => .ok (s == PR_STATE_MERGED)
  | .error e => .error e

/-- `is_open`: `self.get_data("state").upper() == PR_STATE_OPEN`. -/
def PullRequest.is_open (pr : PullRequest) : Except PyErr Bool :=
  match pr.stateUpper with
  | .ok s => .ok (s == PR_STATE_OPEN)
  | .error e => .error e

/-- `is_superseded`: `self.get_data("state").upper() == PR_STATE_SUPERSEDED`. -/
def PullRequest.is_superseded (pr : PullRequest) : Except PyErr Bool :=
  match pr.stateUpper with
  | .ok s => .ok (s == PR_STATE_SUPERSEDED)
  | .error e => .error e

/-- `close_source_branch` accessor: `self.get_data("close_source_branch")`. -/
def PullRequest.close_source_branch (pr : PullRequest) : Except PyErr Json :=
  pr.get_data "close_source_branch"

/-- `_check_if_open`: `if not self.is_open: raise Exception("Pull Request isn't open")`. -/
def PullRequest.check_if_open (pr : PullRequest) : Except PyErr Unit :=
  match pr.is_open with
  | .ok b => if !b then .error (.exception "Pull Request isn\x27t open") else .ok ()
  | .error e => .error e

/-- `comment(raw_message)`: raise `ValueError` when the message is falsy,
else POST `{"content": {"raw": raw_message}}` to the `comments` sub-path. -/
def PullRequest.comment (pr : PullRequest) (raw_message : Json) : ActionResult :=
  if !raw_message.truthy then
    ([], some (.valueError "No message set"))
  else
    ([⟨Method.post, "comments", [], some (Json.obj [("content", Json.obj [("raw", raw_message)])])⟩], none)

/-- `approve()`: `_check_if_open`, then POST `{"approved": True}` to `approve`. -/
def PullRequest.approve (pr : PullRequest) : ActionResult :=
  match pr.check_if_open with
  | .error e => ([], some e)
  | .ok _ => ([⟨Method.post, "approve", [], some (Json.obj [("approved", Json.bool true)])⟩], none)

/-- `unapprove()`: `_check_if_open`, then DELETE `approve`. -/
def PullRequest.unapprove (pr : PullRequest) : ActionResult :=
  match pr.check_if_open with
  | .error e => ([], some e)
  | .ok _ => ([⟨Method.delete, "approve", [], none⟩], none)

/-- `decline()`: `_check_if_open`, then POST `decline` with no body. -/
def PullRequest.decline (pr : PullRequest) : ActionResult :=
  match pr.check_if_open with
  | .error e => ([], some e)
  | .ok _ => ([⟨Method.post, "decline", [], none⟩], none)

/-- The `ValueError` message of `merge` (the source's own spelling,
including its typo, with `str(PR_MERGE_STRATEGIES)` interpolated). -/
def mergeStrategyMsg : String :=
  "merge_stragegy must be [\x27merge_commit\x27, \x27squash\x27, \x27fast_forward\x27]"

/-- `merge(merge_strategy, close_source_branch)`: `_check_if_open`, then
reject a strategy outside `PR_MERGE_STRATEGIES` with `ValueError`, then
POST to `merge` the body whose `close_source_branch` is
`close_source_branch or self.close_source_branch` (Python `or`,
short-circuiting: the cached accessor is only evaluated when the
argument is falsy).  The Python default arguments are
`merge_strategy=PR_MERGE_COMMIT` and `close_source_branch=None`;
callers of this embedding pass them explicitly (see
`PullRequest.merge_default`). -/
def PullRequest.merge (pr : PullRequest) (merge_strategy : String) (close_source_branch : Json) : ActionResult :=
  match pr.check_if_open with
  | .error e => ([], some e)
  | .ok _ =>
    if !(PR_MERGE_STRATEGIES.contains merge_strategy) then
      ([], some (.valueError mergeStrategyMsg))
    else
      match pyOrElse close_source_branch pr.close_source_branch with
      | .error e => ([], some e)
      | .ok csb =>
        ([⟨Method.post, "merge", [],
           some (Json.obj [("close_source_branch", csb),
                           ("merge_strategy", Json.str merge_strategy)])⟩], none)

/-- `merge()` with both arguments left at their Python defaults:
`merge_strategy=PR_MERGE_COMMIT`, `close_source_branch=None`. -/
def PullRequest.merge_default (pr : PullRequest) : ActionResult :=
  pr.merge PR_MERGE_COMMIT Json.null

/-! ### The PullRequests resource collection -/

/-- The `PullRequests` collection: its endpoint URL (session arguments
carry no behaviour relevant here). -/
structure PullRequests where
  url : String

/-- Modelled from the spec: the base client's `url_joiner` is not under
`src/`; per spec section 4.1 it binds an item's Endpoint Reference to
`collection_url/id`. -/
def url_joiner (url : String) (seg : String) : String :=
  url ++ "/" ++ seg

/-- Rendering of a JSON value (`data["id"]`) as a URL path segment. -/
def Json.segment : Json → String
  | .num n => toString n
  | .str s => s
  | _ => ""

/-- Modelled from the spec: the expected-type check of
`BitbucketCloudBase.__init__` is not under `src/`; per spec section 4.2
construction of a wrapper with a declared expectation — here
`PullRequest(url, data, expected_type="pullrequest")` — fails with a
SchemaMismatch-class error if the document carries a type tag that does
not match the expectation, and the check is skipped when the document
carries no tag. -/
def mkPullRequest (url : String) (data : Json) : Except PyErr PullRequest :=
  match data.lookup "type" with
  | none => .ok ⟨url, data⟩
  | some (Json.str t) =>
    if t = "pullrequest" then .ok ⟨url, data⟩
    else .error (.schemaMismatch "pullrequest")
  | some _ => .error (.schemaMismatch "pullrequest")

/-- `__get_object(data)`: return `None` when the record carries an
`"errors"` key, else construct `PullRequest(url_joiner(self.url,
data["id"]), data)` — reading `data["id"]` first, then running the
constructor's expected-type check. -/
def PullRequests.getObject (prs : PullRequests) (data : Json) : Except PyErr (Option PullRequest) :=
  if data.hasKey "errors" then .ok none
  else
    match data.lookup "id" with
    | some idv =>
      match mkPullRequest (url_joiner prs.url idv.segment) data with
      | .ok pr => .ok (some pr)
      | .error e => .error e
    | none => .error (.keyError "id")

/-- Modelled from the spec: `_get_paged` is not under `src/`; per spec
section 4.1 it performs paged GETs, following the server's next-page
pointer until absent and yielding each page's raw records in order.
With the server's pages given as a list of batches, the records
enumerated are their concatenation. -/
def get_paged (pages : List (List Json)) : List Json :=
  pages.flatten

/-- The generator body of `each`: `yield self.__get_object(pr)` for each
raw record, collected into the list of yielded items (Python `None`
becomes `Option.none`); a raised exception ends the enumeration. -/
def PullRequests.eachRecords (prs : PullRequests) : List Json → Except PyErr (List (Option PullRequest))
  | [] => .ok []
  | d :: rest =>
    match prs.getObject d with
    | .error e => .error e
    | .ok o =>
      match prs.eachRecords rest with
      | .error e => .error e
      | .ok os => .ok (o :: os)

/-- `each(q, sort)` over the records of `_get_paged`.  The `q`/`sort`
arguments only shape the first page request's query parameters and do not
affect which records are yielded, so they are not part of the
record-level model. -/
def PullRequests.each (prs : PullRequests) (pages : List (List Json)) : Except PyErr (List (Option PullRequest)) :=
  prs.eachRecords (get_paged pages)

/-! ### The ServiceDesk flat client (`src/atlassian/service_desk.py`)

Modelled from the spec where the base `AtlassianRestAPI` is concerned:
`self.get(path, params)` issues exactly one GET request and returns the
parsed JSON response (spec section 6); it never follows pagination on its
own (spec section 4.3).  Each method below therefore takes the server's
`response` as an argument and returns the requests it issued together
with the value it returns to the caller. -/

structure ServiceDesk where
  advanced_mode : Bool

/-- The `start`/`limit` query-parameter block the Service Desk list
methods share verbatim: `params = {}`, then `params["start"] = int(start)`
when `start` is not `None`, then `params["limit"] = int(limit)` when
`limit` is not `None` (`int` is the identity on the integers modelled
here). -/
def sdParams (start limit : Option Int) : List (String × Int) :=
  (match start with
   | some n => [("start", n)]
   | none => []) ++
  (match limit with
   | some n => [("limit", n)]
   | none => [])

/-- `(response or {}).get("values")`: a falsy response is replaced by the
empty dictionary, then `.get` returns the `values` field or `None`; a
truthy non-dictionary response would have no `.get` attribute. -/
def pyGetValues (response : Json) : Except PyErr Json :=
  match pyOr response (Json.obj []) with
  | .obj fields => .ok ((List.lookup "values" fields).getD Json.null)
  | _ => .error (.attributeError "get")

/-- `get_service_desks()`: one GET, then the advanced-mode/values unwrap. -/
def ServiceDesk.get_service_desks (sd : ServiceDesk) (response : Json) :
    List Request × Except PyErr Json :=
  ([⟨Method.get, "rest/servicedeskapi/servicedesk", [], none⟩],
   if sd.advanced_mode then .ok response else pyGetValues response)

/-- `get_my_customer_requests()`: one GET, then the advanced-mode/values
unwrap. -/
def ServiceDesk.get_my_customer_requests (sd : ServiceDesk) (response : Json) :
    List Request × Except PyErr Json :=
  ([⟨Method.get, "rest/servicedeskapi/request", [], none⟩],
   if sd.advanced_mode then .ok response else pyGetValues response)

/-- `get_request_participants(issue_id_or_key, start, limit)`: one GET
with the `start`/`limit` parameters, then the advanced-mode/values
unwrap. -/
def ServiceDesk.get_request_participants (sd : ServiceDesk) (issue_id_or_key : String)
    (start limit : Option Int) (response : Json) : List Request × Except PyErr Json :=
  ([⟨Method.get, "rest/servicedeskapi/request/" ++ issue_id_or_key ++ "/participant",
     sdParams start limit, none⟩],
   if sd.advanced_mode then .ok response else pyGetValues response)

/-- `get_sla(issue_id_or_key, start, limit)`: one GET with the
`start`/`limit` parameters, then the advanced-mode/values unwrap. -/
def ServiceDesk.get_sla (sd : ServiceDesk) (issue_id_or_key : String)
    (start limit : Option Int) (response : Json) : List Request × Except PyErr Json :=
  ([⟨Method.get, "rest/servicedeskapi/request/" ++ issue_id_or_key ++ "/sla",
     sdParams start limit, none⟩],
   if sd.advanced_mode then .ok response else pyGetValues response)

/-- `get_approvals(issue_id_or_key, start, limit)`: one GET with the
`start`/`limit` parameters, then the advanced-mode/values unwrap. -/
def ServiceDesk.get_approvals (sd : ServiceDesk) (issue_id_or_key : String)
    (start limit : Option Int) (response : Json) : List Request × Except PyErr Json :=
  ([⟨Method.get, "rest/servicedeskapi/request/" ++ issue_id_or_key ++ "/approval",
     sdParams start limit, none⟩],
   if sd.advanced_mode then .ok response else pyGetValues response)

/-- `get_organisations(service_desk_id, start, limit)`: one GET, against
one of two URLs depending on whether a service-desk id was given, and the
raw response returned with no unwrap. -/
def ServiceDesk.get_organisations (sd : ServiceDesk) (service_desk_id : Option String)
    (start limit : Option Int) (response : Json) : List Request × Except PyErr Json :=
  match service_desk_id with
  | none =>
    ([⟨Method.get, "rest/servicedeskapi/organization", sdParams start limit, none⟩], .ok response)
  | some sdid =>
    ([⟨Method.get, "rest/servicedeskapi/servicedesk/" ++ sdid ++ "/organization",
       sdParams start limit, none⟩], .ok response)

/-! ### Concrete demonstration values -/

/-- A pull-requests collection handle. -/
def prsDemo : PullRequests :=
  ⟨"https://api/repositories/ws/repo/pullrequests"⟩

/-- A well-formed raw pull-request record. -/
def wellFormedRec : Json :=
  Json.obj [("id", Json.num 1), ("type", Json.str "pullrequest"), ("state", Json.str "OPEN")]

/-- An inline error-marker record, as the paginated endpoint may emit
for a partial failure. -/
def errorMarkerRec : Json :=
  Json.obj [("errors", Json.arr [Json.obj [("message", Json.str "boom")]])]

/-- An open pull request (lowercase raw state, cached
close-source-branch flag `True`). -/
def prOpenDemo : PullRequest :=
  ⟨"https://api/repositories/ws/repo/pullrequests/1",
   Json.obj [("id", Json.num 1), ("state", Json.str "open"), ("close_source_branch", Json.bool true)]⟩

/-- A merged (hence non-open) pull request. -/
def prMergedDemo : PullRequest :=
  ⟨"https://api/repositories/ws/repo/pullrequests/2",
   Json.obj [("id", Json.num 2), ("state", Json.str "MERGED"), ("close_source_branch", Json.bool false)]⟩

/-- A pull request whose raw state is outside the valid enumeration. -/
def prUnknownDemo : PullRequest :=
  ⟨"https://api/repositories/ws/repo/pullrequests/3",
   Json.obj [("id", Json.num 3), ("state", Json.str "closed"), ("close_source_branch", Json.bool false)]⟩

/-! ### Helper lemmas -/

theorem stateUpper_of_str (pr : PullRequest) (s : String)
    (h : pr.get_data "state" = .ok (Json.str s)) :
    pr.stateUpper = .ok (pyStrUpper s) := by
  simp [PullRequest.stateUpper, h, pyUpper]

theorem is_open_of_str (pr : PullRequest) (s : String)
    (h : pr.get_data "state" = .ok (Json.str s)) :
    pr.is_open = .ok (pyStrUpper s == PR_STATE_OPEN) := by
  simp [PullRequest.is_open, stateUpper_of_str pr s h]

theorem is_merged_of_str (pr : PullRequest) (s : String)
    (h : pr.get_data "state" = .ok (Json.str s)) :
    pr.is_merged = .ok (pyStrUpper s == PR_STATE_MERGED) := by
  simp [PullRequest.is_merged, stateUpper_of_str pr s h]

theorem is_declined_of_str (pr : PullRequest) (s : String)
    (h : pr.get_data "state" = .ok (Json.str s)) :
    pr.is_declined = .ok (pyStrUpper s == PR_STATE_DECLINED) := by
  simp [PullRequest.is_declined, stateUpper_of_str pr s h]

theorem is_superseded_of_str (pr : PullRequest) (s : String)
    (h : pr.get_data "state" = .ok (Json.str s)) :
    pr.is_superseded = .ok (pyStrUpper s == PR_STATE_SUPERSEDED) := by
  simp [PullRequest.is_superseded, stateUpper_of_str pr s h]

theorem check_if_open_of_open (pr : PullRequest) (s : String)
    (h : pr.get_data "state" = .ok (Json.str s))
    (ho : pyStrUpper s = PR_STATE_OPEN) :
    pr.check_if_open = .ok () := by
  have hb : pr.is_open = .ok true := by
    rw [is_open_of_str pr s h, ho]
    rfl
  simp [PullRequest.check_if_open, hb]

theorem check_if_open_of_not_open (pr : PullRequest) (s : String)
    (h : pr.get_data "state" = .ok (Json.str s))
    (hn : pyStrUpper s ≠ PR_STATE_OPEN) :
    pr.check_if_open = .error (.exception "Pull Request isn\x27t open") := by
  have hb : pr.is_open = .ok false :=
    (is_open_of_str pr s h).trans (congrArg Except.ok (beq_eq_false_iff_ne.mpr hn))
  simp [PullRequest.check_if_open, hb]

theorem getObject_of_no_errors (prs : PullRequests) (w idv : Json)
    (hw : w.hasKey "errors" = false) (hid : w.lookup "id" = some idv)
    (hty : w.lookup "type" = some (Json.str "pullrequest")) :
    prs.getObject w = .ok (some ⟨url_joiner prs.url idv.segment, w⟩) := by
  simp [PullRequests.getObject, mkPullRequest, hw, hid, hty]

theorem getObject_of_errors (prs : PullRequests) (e : Json)
    (he : e.hasKey "errors" = true) :
    prs.getObject e = .ok none := by
  simp [PullRequests.getObject, he]

theorem pyGetValues_obj (fields : List (String × Json)) :
    pyGetValues (Json.obj fields) = .ok ((List.lookup "values" fields).getD Json.null) := by
  cases fields with
  | nil => rfl
  | cons p rest => rfl

/-! ### Claim theorems -/

/-- Claim C1, counterexample: the error-marker record is NOT skipped by
`PullRequests.each`.  On a page holding one well-formed record and one
error-marker record the generator yields two items, not one: the wrapped
pull request and then a bare `None` (`__get_object` returns `None` for
the error marker and `each` yields that `None` instead of dropping it). -/
theorem C1_error_marker_not_skipped :
    (prsDemo.each [[wellFormedRec, errorMarkerRec]]).map (fun l => l.map Option.isSome)
      = .ok [true, false] := rfl

/-- Claim C1 (amended): for a page holding one well-formed record
(carrying an id and a matching `"pullrequest"` type tag) and one
error-marker record, `each` yields exactly one wrapped `PullRequest` —
but the error-marker record is not silently skipped: the generator
yields a `None` placeholder in its position, so the enumeration has two
items, of which exactly one is a wrapped object. -/
theorem C1_each_wraps_one_yields_placeholder (prs : PullRequests) (w e idv : Json)
    (hw : w.hasKey "errors" = false) (hid : w.lookup "id" = some idv)
    (hty : w.lookup "type" = some (Json.str "pullrequest"))
    (he : e.hasKey "errors" = true) :
    ∃ pr, prs.each [[w, e]] = .ok [some pr, none] := by
  refine ⟨⟨url_joiner prs.url idv.segment, w⟩, ?_⟩
  simp [PullRequests.each, get_paged, PullRequests.eachRecords,
        getObject_of_no_errors prs w idv hw hid hty, getObject_of_errors prs e he]

/-- Claim C1, witness: the amended statement at a concrete page. -/
theorem C1_each_wraps_one_yields_placeholder_witness :
    ∃ pr, prsDemo.each [[wellFormedRec, errorMarkerRec]] = .ok [some pr, none] :=
  C1_each_wraps_one_yields_placeholder prsDemo wellFormedRec errorMarkerRec (Json.num 1)
    rfl rfl rfl rfl

/-- Claim C2, counterexample: `merge` with an invalid strategy on a pull
request whose cached state is `MERGED` does not fail with the
InvalidArgument-class `ValueError` — `_check_if_open` runs first, so it
fails with the InvalidState-class generic `Exception` (still issuing no
request). -/
theorem C2_invalid_strategy_on_merged_is_invalid_state :
    prMergedDemo.merge "invalid" Json.null
      = ([], some (PyErr.exception "Pull Request isn\x27t open")) ∧
    (prMergedDemo.merge "invalid" Json.null).2.map PyErr.isValueError = some false :=
  ⟨rfl, rfl⟩

/-- Claim C2 (amended): for every pull request whose cached state is
`OPEN` (case-insensitively), `merge` with a strategy outside
`PR_MERGE_STRATEGIES` fails with the InvalidArgument-class `ValueError`
and issues no request; on a non-open pull request the InvalidState check
fires first instead. -/
theorem C2_open_merge_invalid_strategy (pr : PullRequest) (s strat : String) (csb : Json)
    (hstate : pr.get_data "state" = .ok (Json.str s))
    (hopen : pyStrUpper s = PR_STATE_OPEN)
    (hstrat : strat ∉ PR_MERGE_STRATEGIES) :
    pr.merge strat csb = ([], some (PyErr.valueError mergeStrategyMsg)) := by
  simp [PullRequest.merge, check_if_open_of_open pr s hstate hopen, hstrat]

/-- Claim C2, witness: the amended statement on an open pull request with
the strategy string `"invalid"`. -/
theorem C2_open_merge_invalid_strategy_witness :
    prOpenDemo.merge "invalid" Json.null = ([], some (PyErr.valueError mergeStrategyMsg)) :=
  C2_open_merge_invalid_strategy prOpenDemo "open" "invalid" Json.null rfl rfl (by decide)

/-- Claim C3: on a pull request whose cached state is not `OPEN`
(case-insensitively), each of `approve`, `unapprove`, `decline` and
`merge` (the latter for every argument pair) fails with the
InvalidState-class `Exception` of `_check_if_open` and issues no
request. -/
theorem C3_non_open_actions_fail_fast (pr : PullRequest) (s : String)
    (hstate : pr.get_data "state" = .ok (Json.str s))
    (hnot : pyStrUpper s ≠ PR_STATE_OPEN) :
    pr.approve = ([], some (PyErr.exception "Pull Request isn\x27t open")) ∧
    pr.unapprove = ([], some (PyErr.exception "Pull Request isn\x27t open")) ∧
    pr.decline = ([], some (PyErr.exception "Pull Request isn\x27t open")) ∧
    ∀ (merge_strategy : String) (close_source_branch : Json),
      pr.merge merge_strategy close_source_branch
        = ([], some (PyErr.exception "Pull Request isn\x27t open")) := by
  have hchk := check_if_open_of_not_open pr s hstate hnot
  refine ⟨?_, ?_, ?_, fun strat csb => ?_⟩ <;>
    simp [PullRequest.approve, PullRequest.unapprove, PullRequest.decline,
          PullRequest.merge, hchk]

/-- Claim C3, witness: the four actions on a merged pull request. -/
theorem C3_non_open_actions_fail_fast_witness :
    prMergedDemo.approve = ([], some (PyErr.exception "Pull Request isn\x27t open")) ∧
    prMergedDemo.unapprove = ([], some (PyErr.exception "Pull Request isn\x27t open")) ∧
    prMergedDemo.decline = ([], some (PyErr.exception "Pull Request isn\x27t open")) ∧
    prMergedDemo.merge "squash" Json.null
      = ([], some (PyErr.exception "Pull Request isn\x27t open")) := by
  obtain ⟨h1, h2, h3, h4⟩ :=
    C3_non_open_actions_fail_fast prMergedDemo "MERGED" rfl (by decide)
  exact ⟨h1, h2, h3, h4 "squash" Json.null⟩

/-- Claim C4: `comment` fails with the InvalidArgument-class `ValueError`
and issues no request exactly when the message is empty (`None` or the
empty string); for any non-empty message it issues exactly one POST to
the `comments` sub-path with body `{"content": {"raw": message}}`,
with no open-state precondition (the pull request is arbitrary). -/
theorem C4_comment_empty_iff (pr : PullRequest) :
    pr.comment Json.null = ([], some (PyErr.valueError "No message set")) ∧
    pr.comment (Json.str "") = ([], some (PyErr.valueError "No message set")) ∧
    ∀ s : String, s ≠ "" →
      pr.comment (Json.str s) =
        ([⟨Method.post, "comments", [],
           some (Json.obj [("content", Json.obj [("raw", Json.str s)])])⟩], none) := by
  refine ⟨rfl, rfl, fun s hs => ?_⟩
  simp [PullRequest.comment, Json.truthy, hs]

/-- Claim C4, witness: `comment("lgtm")` issues the POST even on a merged
pull request, and `comment(None)` fails with `ValueError`. -/
theorem C4_comment_empty_iff_witness :
    prMergedDemo.comment (Json.str "lgtm") =
      ([⟨Method.post, "comments", [],
         some (Json.obj [("content", Json.obj [("raw", Json.str "lgtm")])])⟩], none) ∧
    prMergedDemo.comment Json.null = ([], some (PyErr.valueError "No message set")) := by
  obtain ⟨h1, h2, h3⟩ := C4_comment_empty_iff prMergedDemo
  exact ⟨h3 "lgtm" (by decide), h1⟩

/-- Claim C5: for every pull request whose raw `state` field is
(case-insensitively) one of the four valid values, the matching predicate
among `is_open`/`is_merged`/`is_declined`/`is_superseded` returns `True`
and the other three return `False`. -/
theorem C5_valid_state_predicates (pr : PullRequest) (s : String)
    (hstate : pr.get_data "state" = .ok (Json.str s)) :
    (pyStrUpper s = PR_STATE_OPEN →
      pr.is_open = .ok true ∧ pr.is_merged = .ok false ∧
      pr.is_declined = .ok false ∧ pr.is_superseded = .ok false) ∧
    (pyStrUpper s = PR_STATE_MERGED →
      pr.is_open = .ok false ∧ pr.is_merged = .ok true ∧
      pr.is_declined = .ok false ∧ pr.is_superseded = .ok false) ∧
    (pyStrUpper s = PR_STATE_DECLINED →
      pr.is_open = .ok false ∧ pr.is_merged = .ok false ∧
      pr.is_declined = .ok true ∧ pr.is_superseded = .ok false) ∧
    (pyStrUpper s = PR_STATE_SUPERSEDED →
      pr.is_open = .ok false ∧ pr.is_merged = .ok false ∧
      pr.is_declined = .ok false ∧ pr.is_superseded = .ok true) := by
  have ho := is_open_of_str pr s hstate
  have hm := is_merged_of_str pr s hstate
  have hd := is_declined_of_str pr s hstate
  have hsup := is_superseded_of_str pr s hstate
  refine ⟨fun h => ?_, fun h => ?_, fun h => ?_, fun h => ?_⟩ <;>
    rw [h] at ho hm hd hsup <;>
    exact ⟨ho.trans rfl, hm.trans rfl, hd.trans rfl, hsup.trans rfl⟩

/-- Claim C5, witness: a pull request with raw state `"open"` satisfies
`is_open` and none of the other three predicates. -/
theorem C5_valid_state_predicates_witness :
    prOpenDemo.is_open = .ok true ∧ prOpenDemo.is_merged = .ok false ∧
    prOpenDemo.is_declined = .ok false ∧ prOpenDemo.is_superseded = .ok false :=
  (C5_valid_state_predicates prOpenDemo "open" rfl).1 rfl

/-- Claim C6: on a pull request whose raw `state` is a string outside the
valid enumeration (case-insensitively), all four state predicates return
`False` and none of them raises: each evaluates to an `ok` result. -/
theorem C6_unknown_state_all_false (pr : PullRequest) (s : String)
    (hstate : pr.get_data "state" = .ok (Json.str s))
    (h1 : pyStrUpper s ≠ PR_STATE_OPEN) (h2 : pyStrUpper s ≠ PR_STATE_MERGED)
    (h3 : pyStrUpper s ≠ PR_STATE_DECLINED) (h4 : pyStrUpper s ≠ PR_STATE_SUPERSEDED) :
    pr.is_open = .ok false ∧ pr.is_merged = .ok false ∧
    pr.is_declined = .ok false ∧ pr.is_superseded = .ok false :=
  ⟨(is_open_of_str pr s hstate).trans (congrArg Except.ok (beq_eq_false_iff_ne.mpr h1)),
   (is_merged_of_str pr s hstate).trans (congrArg Except.ok (beq_eq_false_iff_ne.mpr h2)),
   (is_declined_of_str pr s hstate).trans (congrArg Except.ok (beq_eq_false_iff_ne.mpr h3)),
   (is_superseded_of_str pr s hstate).trans (congrArg Except.ok (beq_eq_false_iff_ne.mpr h4))⟩

/-- Claim C6, witness: raw state `"closed"` is outside the enumeration
and all four predicates return `False` without raising. -/
theorem C6_unknown_state_all_false_witness :
    prUnknownDemo.is_open = .ok false ∧ prUnknownDemo.is_merged = .ok false ∧
    prUnknownDemo.is_declined = .ok false ∧ prUnknownDemo.is_superseded = .ok false :=
  C6_unknown_state_all_false prUnknownDemo "closed" rfl
    (by decide) (by decide) (by decide) (by decide)

/-- Claim C7: on an open pull request, `merge` with both arguments left
at their Python defaults issues one POST whose body's
`close_source_branch` field is the object's own cached
close-source-branch value and whose `merge_strategy` field is
`merge_commit`. -/
theorem C7_merge_default_body (pr : PullRequest) (s : String) (csb : Json)
    (hstate : pr.get_data "state" = .ok (Json.str s))
    (hopen : pyStrUpper s = PR_STATE_OPEN)
    (hcsb : pr.get_data "close_source_branch" = .ok csb) :
    pr.merge_default =
      ([⟨Method.post, "merge", [],
         some (Json.obj [("close_source_branch", csb),
                         ("merge_strategy", Json.str PR_MERGE_COMMIT)])⟩], none) := by
  simp [PullRequest.merge_default, PullRequest.merge,
        check_if_open_of_open pr s hstate hopen,
        PullRequest.close_source_branch, hcsb, pyOrElse, Json.truthy]
  decide

/-- Claim C7, witness: the default `merge` on an open pull request whose
cached close-source-branch flag is `True`. -/
theorem C7_merge_default_body_witness :
    prOpenDemo.merge_default =
      ([⟨Method.post, "merge", [],
         some (Json.obj [("close_source_branch", Json.bool true),
                         ("merge_strategy", Json.str PR_MERGE_COMMIT)])⟩], none) :=
  C7_merge_default_body prOpenDemo "open" (Json.bool true) rfl rfl rfl

/-- Claim C9: on an open pull request, `merge` with `close_source_branch`
explicitly `False` still sends the object's cached close-source-branch
flag — Python's `close_source_branch or self.close_source_branch`
discards the falsy explicit argument. -/
theorem C9_merge_explicit_false_overridden (pr : PullRequest) (s : String) (b : Bool)
    (hstate : pr.get_data "state" = .ok (Json.str s))
    (hopen : pyStrUpper s = PR_STATE_OPEN)
    (hcsb : pr.get_data "close_source_branch" = .ok (Json.bool b)) :
    pr.merge PR_MERGE_COMMIT (Json.bool false) =
      ([⟨Method.post, "merge", [],
         some (Json.obj [("close_source_branch", Json.bool b),
                         ("merge_strategy", Json.str PR_MERGE_COMMIT)])⟩], none) := by
  simp [PullRequest.merge, check_if_open_of_open pr s hstate hopen,
        PullRequest.close_source_branch, hcsb, pyOrElse, Json.truthy]
  decide

/-- Claim C9, witness: explicit `close_source_branch=False` against a
cached flag of `True` sends `True`. -/
theorem C9_merge_explicit_false_overridden_witness :
    prOpenDemo.merge PR_MERGE_COMMIT (Json.bool false) =
      ([⟨Method.post, "merge", [],
         some (Json.obj [("close_source_branch", Json.bool true),
                         ("merge_strategy", Json.str PR_MERGE_COMMIT)])⟩], none) :=
  C9_merge_explicit_false_overridden prOpenDemo "open" true rfl rfl rfl

/-- Claim C8: each Service Desk list method taking `start`/`limit`
issues exactly one GET with `start` and `limit` forwarded as integer
query parameters when they are not `None` (and omitted when `None`),
for every server response — in particular it never follows a next-page
pointer, since the requests issued do not depend on the response. -/
theorem C8_sd_list_methods_single_get (sd : ServiceDesk) (issue sdid : String)
    (a b : Int) (response : Json) :
    (sd.get_request_participants issue (some a) (some b) response).1 =
      [⟨Method.get, "rest/servicedeskapi/request/" ++ issue ++ "/participant",
        [("start", a), ("limit", b)], none⟩] ∧
    (sd.get_sla issue (some a) (some b) response).1 =
      [⟨Method.get, "rest/servicedeskapi/request/" ++ issue ++ "/sla",
        [("start", a), ("limit", b)], none⟩] ∧
    (sd.get_approvals issue (some a) (some b) response).1 =
      [⟨Method.get, "rest/servicedeskapi/request/" ++ issue ++ "/approval",
        [("start", a), ("limit", b)], none⟩] ∧
    (sd.get_organisations (some sdid) (some a) (some b) response).1 =
      [⟨Method.get, "rest/servicedeskapi/servicedesk/" ++ sdid ++ "/organization",
        [("start", a), ("limit", b)], none⟩] ∧
    (sd.get_organisations none (some a) (some b) response).1 =
      [⟨Method.get, "rest/servicedeskapi/organization",
        [("start", a), ("limit", b)], none⟩] ∧
    (sd.get_request_participants issue none none response).1 =
      [⟨Method.get, "rest/servicedeskapi/request/" ++ issue ++ "/participant",
        [], none⟩] :=
  ⟨rfl, rfl, rfl, rfl, rfl, rfl⟩

/-- Claim C10: for each unwrapping Service Desk list method, advanced
mode returns the raw response unchanged; otherwise a dictionary response
yields its `values` field (`None` when absent, covering the empty
dictionary a falsy response is replaced by), and a `None` response
yields `None` rather than an error. -/
theorem C10_sd_unwrap_values (issue : String) (start limit : Option Int)
    (response : Json) (fields : List (String × Json)) :
    (((ServiceDesk.mk true).get_service_desks response).2 = .ok response ∧
     ((ServiceDesk.mk true).get_my_customer_requests response).2 = .ok response ∧
     ((ServiceDesk.mk true).get_request_participants issue start limit response).2 = .ok response ∧
     ((ServiceDesk.mk true).get_sla issue start limit response).2 = .ok response ∧
     ((ServiceDesk.mk true).get_approvals issue start limit response).2 = .ok response) ∧
    (((ServiceDesk.mk false).get_service_desks (Json.obj fields)).2
        = .ok ((List.lookup "values" fields).getD Json.null) ∧
     ((ServiceDesk.mk false).get_my_customer_requests (Json.obj fields)).2
        = .ok ((List.lookup "values" fields).getD Json.null) ∧
     ((ServiceDesk.mk false).get_request_participants issue start limit (Json.obj fields)).2
        = .ok ((List.lookup "values" fields).getD Json.null) ∧
     ((ServiceDesk.mk false).get_sla issue start limit (Json.obj fields)).2
        = .ok ((List.lookup "values" fields).getD Json.null) ∧
     ((ServiceDesk.mk false).get_approvals issue start limit (Json.obj fields)).2
        = .ok ((List.lookup "values" fields).getD Json.null)) ∧
    (((ServiceDesk.mk false).get_service_desks Json.null).2 = .ok Json.null ∧
     ((ServiceDesk.mk false).get_my_customer_requests Json.null).2 = .ok Json.null ∧
     ((ServiceDesk.mk false).get_request_participants issue start limit Json.null).2 = .ok Json.null ∧
     ((ServiceDesk.mk false).get_sla issue start limit Json.null).2 = .ok Json.null ∧
     ((ServiceDesk.mk false).get_approvals issue start limit Json.null).2 = .ok Json.null) :=
  ⟨⟨rfl, rfl, rfl, rfl, rfl⟩,
   ⟨pyGetValues_obj fields, pyGetValues_obj fields, pyGetValues_obj fields,
    pyGetValues_obj fields, pyGetValues_obj fields⟩,
   ⟨rfl, rfl, rfl, rfl, rfl⟩⟩
